import Mathlib

/-
  Shallow embedding of the DoH responder in src/src/responder/src/main.rs
  (crate `responder` of the dnssls repository).

  External library behaviour (trust_dns message parsing/serialization,
  base64url decoding, the upstream resolver) is passed in as function
  parameters; everything the repository's own code does — method dispatch,
  request decoding, denylist filtering, resolver-outcome mapping, response
  synthesis, HTTP status mapping — is embedded directly from the source.
  Rust panics (`unwrap`/`expect`/out-of-bounds indexing/`String::remove`
  off a char boundary) are modelled as an explicit `panic` outcome.
-/

namespace Dnssls

/-- HTTP methods, as matched by `respond` (lambda_http `Method`). -/
inductive Method
  | get | post | put | delete | head | options | patch
deriving DecidableEq, Repr

/-- The lambda_http `Body` type: empty, textual, or binary. -/
inductive Body
  | empty
  | text (s : String)
  | binary (data : List Nat)
deriving DecidableEq, Repr

/-- trust_dns `MessageType`. -/
inductive MessageType
  | query
  | response
deriving DecidableEq, Repr

/-- One entry of a DNS message's question section (trust_dns `Query`).
The name is kept as the character sequence of its UTF-8 rendering
(`Name::to_utf8`), which is what the handler works with. -/
structure Query where
  name : List Char
  queryType : Nat
  queryClass : Nat
deriving DecidableEq, Repr

/-- A DNS resource record (trust_dns `Record`); the handler only clones
records, so the field content is never inspected. -/
structure Record where
  rname : List Char
  rrType : Nat
  ttl : Nat
  rdata : List Nat
deriving DecidableEq, Repr

/-- A DNS message (the trust_dns `Message` fields the handler touches or
carries along). -/
structure Message where
  id : Nat
  messageType : MessageType
  opCode : Nat
  recursionDesired : Bool
  recursionAvailable : Bool
  responseCode : Nat
  queries : List Query
  answers : List Record
  authority : List Record
  additionals : List Record
deriving DecidableEq, Repr

/-- The DNS NXDOMAIN response code. -/
def nxDomain : Nat := 3

/-- Outcome of `RESOLVER.lookup`, classified exactly as `respond` matches
`ResolveErrorKind`: success with records, `NoRecordsFound`, `Proto`, or any
other error. -/
inductive LookupResult
  | ok (records : List Record)
  | noRecordsFound
  | proto
  | other
deriving DecidableEq, Repr

/-- Byte length of a string given as a list of characters (Rust
`String::len`). -/
def utf8Len (s : List Char) : Nat := (s.map Char.utf8Size).sum

/-- Rust `String::remove self idx`: removes the character starting at BYTE
offset `idx`; `none` models the panic when `idx` is past the end or not on
a character boundary. -/
def stringRemove : List Char → Nat → Option (List Char)
  | [], _ => none
  | c :: rest, i =>
    if i = 0 then some rest
    else if i < c.utf8Size then none
    else (stringRemove rest (i - c.utf8Size)).map (fun r => c :: r)

/-- Lines 153–157 of `respond`: the key used for the denylist lookup.
Starting from `domain`, when the byte length is positive and the last
character is a dot, the character at byte offset `chars().count() - 1`
(the CHARACTER count, used as a byte index) is removed; `none` models the
panic of `String::remove`. -/
def domainWithoutLastPeriod (domain : List Char) : Option (List Char) :=
  if 0 < utf8Len domain ∧ domain.getLast? = some '.' then
    stringRemove domain (domain.length - 1)
  else
    some domain

/-- The spec's words for the denylist key ("strip a single trailing
root-label dot from the wire-format name before lookup"), for comparison
with the handler's `domainWithoutLastPeriod`. -/
def specStripTrailingDot (domain : List Char) : List Char :=
  if domain.getLast? = some '.' then domain.dropLast else domain

/-- Result of the DNS-level part of `respond` (lines 149–197): a response
message to serialize, an internal error (HTTP 500), or a panic. -/
inductive CoreResult
  | respond (msg : Message)
  | internalError
  | panics
deriving DecidableEq, Repr

/-- Lines 149–197 of `respond`: index the first question (panics when the
question section is empty), compute the denylist key, clone the request
message, set message type Response and recursion-available, then either
mark NXDomain (denylist hit), append the resolver's records (success), map
`NoRecordsFound`/`Proto` to NXDomain, or fail internally on any other
resolver error. -/
def respondCore (hosts : List (List Char)) (lookup : List Char → Nat → LookupResult)
    (message : Message) : CoreResult :=
  match message.queries with
  | [] => .panics
  | query :: _ =>
    let domain := query.name
    match domainWithoutLastPeriod domain with
    | none => .panics
    | some key =>
      let response : Message :=
        { message with messageType := .response, recursionAvailable := true }
      if hosts.contains key then
        .respond { response with responseCode := nxDomain }
      else
        match lookup domain query.queryType with
        | .ok records =>
          .respond { response with answers := response.answers ++ records }
        | .noRecordsFound => .respond { response with responseCode := nxDomain }
        | .proto => .respond { response with responseCode := nxDomain }
        | .other => .internalError

/-- Errors out of `message_from_get` / `message_from_post`: a
`BadRequestError` with its message, or any other bubbled-up error. -/
inductive HandlerError
  | badRequest (message : String)
  | internal
deriving DecidableEq, Repr

/-- An inbound lambda_http request as the handler consumes it: the HTTP
method, the query pairs of the parsed request URI (`none` models a
`Url::parse` failure), and the body. -/
structure Request where
  method : Method
  queryPairs : Option (List (String × String))
  body : Body
deriving DecidableEq, Repr

/-- Lines 209–234, `message_from_get`: a `Url::parse` failure bubbles up as
a non-`BadRequestError` error; a missing `dns` query parameter, a base64url
decode failure, and an unparsable DNS message each raise a
`BadRequestError`. `b64decode` embeds `base64_url::decode`, `fromBytes`
embeds `Message::from_bytes`. -/
def messageFromGet (b64decode : String → Option (List Nat))
    (fromBytes : List Nat → Option Message) (request : Request) :
    Except HandlerError Message :=
  match request.queryPairs with
  | none => .error .internal
  | some pairs =>
    match pairs.find? (fun pair => pair.fst == "dns") with
    | none => .error (.badRequest "Missing 'dns' query string parameter")
    | some pair =>
      match b64decode pair.snd with
      | none => .error (.badRequest "Invalid DNS message")
      | some payload =>
        match fromBytes payload with
        | none => .error (.badRequest "Invalid DNS message")
        | some message => .ok message

/-- Lines 236–255, `message_from_post`: an empty body, a textual body, and
an unparsable binary body each raise a `BadRequestError`. -/
def messageFromPost (fromBytes : List Nat → Option Message) (request : Request) :
    Except HandlerError Message :=
  match request.body with
  | .empty => .error (.badRequest "Empty body")
  | .text _ => .error (.badRequest "Text body")
  | .binary data =>
    match fromBytes data with
    | none => .error (.badRequest "Invalid DNS message")
    | some message => .ok message

/-- An outbound HTTP response: status code, headers, body. -/
structure HttpResponse where
  status : Nat
  headers : List (String × String)
  body : Body
deriving DecidableEq, Repr

/-- Lines 121–127 of `respond`: dispatch on the method; `none` means the
method is neither GET nor POST (HTTP 405 before any decoding). -/
def decodeRequest (b64decode : String → Option (List Nat))
    (fromBytes : List Nat → Option Message) (request : Request) :
    Option (Except HandlerError Message) :=
  match request.method with
  | .get => some (messageFromGet b64decode fromBytes request)
  | .post => some (messageFromPost fromBytes request)
  | _ => none

/-- Result of one invocation of `respond`: an HTTP response, or a panic. -/
inductive RespondResult
  | http (response : HttpResponse)
  | panic
deriving DecidableEq, Repr

/-- The full `respond` handler (lines 112–207): method dispatch and request
decoding, the 405/400/500 mappings, the DNS-level core, and serialization
of the response (`to_bytes().expect(..)` — a serialization failure panics).
`toBytes` embeds `Message::to_bytes`. -/
def respond (hosts : List (List Char)) (lookup : List Char → Nat → LookupResult)
    (b64decode : String → Option (List Nat)) (fromBytes : List Nat → Option Message)
    (toBytes : Message → Option (List Nat)) (request : Request) : RespondResult :=
  match decodeRequest b64decode fromBytes request with
  | none => .http ⟨405, [], .empty⟩
  | some (.error (.badRequest msg)) =>
    .http ⟨400, [], .text ("Bad request: " ++ msg)⟩
  | some (.error .internal) => .http ⟨500, [], .empty⟩
  | some (.ok message) =>
    match respondCore hosts lookup message with
    | .panics => .panic
    | .internalError => .http ⟨500, [], .empty⟩
    | .respond responseMsg =>
      match toBytes responseMsg with
      | none => .panic
      | some responseBytes =>
        .http ⟨200, [("Content-Type", "application/dns-message")], .binary responseBytes⟩

/-- A resolver stub whose every lookup fails with a non-NoRecordsFound,
non-Proto error. -/
def lookupOther : List Char → Nat → LookupResult := fun _ _ => .other

/-- A base64url decoder stub that always fails (unused on POST paths). -/
def b64None : String → Option (List Nat) := fun _ => none

/-- A serializer stub that encodes only the answer count, always
succeeding. -/
def tbLen : Message → Option (List Nat) := fun msg => some [msg.answers.length]

/-- A concrete POST request with a one-byte binary body. -/
def reqPostStub : Request := ⟨Method.post, none, Body.binary [0]⟩

/-- A concrete resource record. -/
def recA : Record := ⟨"x.".toList, 1, 60, [1, 2, 3, 4]⟩

/-- Another concrete resource record. -/
def recB : Record := ⟨"y.".toList, 1, 60, [5, 6, 7, 8]⟩

/-- A clean query for a denylisted domain: one question, no answers,
success response code. -/
def msgBlockedClean : Message :=
  ⟨1, .query, 0, true, false, 0, [⟨"blocked.".toList, 1, 1⟩], [], [], []⟩

/-- A clean query for a non-denylisted domain. -/
def msgAllowedClean : Message :=
  ⟨2, .query, 0, true, false, 0, [⟨"ok.".toList, 1, 1⟩], [], [], []⟩

/-- A clean query for a domain with no records upstream. -/
def msgGoneClean : Message :=
  ⟨3, .query, 0, true, false, 0, [⟨"gone.".toList, 1, 1⟩], [], [], []⟩

/-- A decodable query for a denylisted domain that already carries an
answer record. -/
def msgC1 : Message :=
  ⟨7, .query, 0, true, false, 0, [⟨"blocked.".toList, 1, 1⟩], [recA], [], []⟩

/-- The response the handler builds for `msgC1` when the domain is
denylisted. -/
def respC1 : Message :=
  { msgC1 with messageType := .response, recursionAvailable := true,
               responseCode := nxDomain }

/-- A decodable query that carries an answer record and a non-zero
response code. -/
def msgC2 : Message :=
  ⟨9, .query, 0, true, false, 2, [⟨"good.".toList, 1, 1⟩], [recA], [], []⟩

/-- The response the handler builds for `msgC2` when the resolver returns
the single record `recB`. -/
def respC2 : Message :=
  { msgC2 with messageType := .response, recursionAvailable := true,
               answers := [recA, recB] }

/-- A decodable query that already carries an answer record, for a domain
the resolver reports as non-existent. -/
def msgC3 : Message :=
  ⟨11, .query, 0, true, false, 0, [⟨"gone.".toList, 1, 1⟩], [recB], [], []⟩

/-- The response the handler builds for `msgC3` on a NoRecordsFound
outcome. -/
def respC3 : Message :=
  { msgC3 with messageType := .response, recursionAvailable := true,
               responseCode := nxDomain }

/-- A query for the non-ASCII domain name `éa.`. -/
def msgNonAscii : Message :=
  ⟨5, .query, 0, true, false, 0, [⟨"éa.".toList, 1, 1⟩], [], [], []⟩

/-- A query for the non-ASCII domain name `é.`. -/
def msgNonAsciiShort : Message :=
  ⟨6, .query, 0, true, false, 0, [⟨"é.".toList, 1, 1⟩], [], [], []⟩

/-- The response the handler builds for `msgAllowedClean` when the
resolver returns the single record `recB`. -/
def respC10 : Message :=
  { msgAllowedClean with messageType := .response, recursionAvailable := true,
                         answers := [recB] }

/-- Evaluation of the core's denylist-hit branch: with the first question's
computed key on the denylist, the response is the cloned request with
message type Response, recursion-available set, and code NXDomain. -/
theorem respondCore_blocked (hosts : List (List Char))
    (lookup : List Char → Nat → LookupResult) (m : Message) (q : Query)
    (rest : List Query) (k : List Char) (hq : m.queries = q :: rest)
    (hk : domainWithoutLastPeriod q.name = some k)
    (hmem : hosts.contains k = true) :
    respondCore hosts lookup m =
      .respond { m with messageType := .response, recursionAvailable := true,
                        responseCode := nxDomain } := by
  unfold respondCore
  simp only [hq, hk, hmem, if_true]

/-- Evaluation of the core's successful-lookup branch: the resolver's
records are appended to the cloned request's answer section. -/
theorem respondCore_answered (hosts : List (List Char))
    (lookup : List Char → Nat → LookupResult) (m : Message) (q : Query)
    (rest : List Query) (k : List Char) (records : List Record)
    (hq : m.queries = q :: rest)
    (hk : domainWithoutLastPeriod q.name = some k)
    (hmem : hosts.contains k = false)
    (hl : lookup q.name q.queryType = .ok records) :
    respondCore hosts lookup m =
      .respond { m with messageType := .response, recursionAvailable := true,
                        answers := m.answers ++ records } := by
  unfold respondCore
  simp only [hq, hk, hmem, hl, Bool.false_eq_true, if_false]

/-- Evaluation of the core's NoRecordsFound/Proto branches: both set code
NXDomain on the cloned request. -/
theorem respondCore_nxmapped (hosts : List (List Char))
    (lookup : List Char → Nat → LookupResult) (m : Message) (q : Query)
    (rest : List Query) (k : List Char) (hq : m.queries = q :: rest)
    (hk : domainWithoutLastPeriod q.name = some k)
    (hmem : hosts.contains k = false)
    (hl : lookup q.name q.queryType = .noRecordsFound ∨
      lookup q.name q.queryType = .proto) :
    respondCore hosts lookup m =
      .respond { m with messageType := .response, recursionAvailable := true,
                        responseCode := nxDomain } := by
  unfold respondCore
  rcases hl with hl | hl <;> simp only [hq, hk, hmem, hl, Bool.false_eq_true, if_false]

/-- Evaluation of the core's remaining resolver-error branch. -/
theorem respondCore_transient (hosts : List (List Char))
    (lookup : List Char → Nat → LookupResult) (m : Message) (q : Query)
    (rest : List Query) (k : List Char) (hq : m.queries = q :: rest)
    (hk : domainWithoutLastPeriod q.name = some k)
    (hmem : hosts.contains k = false)
    (hl : lookup q.name q.queryType = .other) :
    respondCore hosts lookup m = .internalError := by
  unfold respondCore
  simp only [hq, hk, hmem, hl, Bool.false_eq_true, if_false]

/-- When decoding succeeds, the core yields a response message, and the
serializer succeeds on it, `respond` returns HTTP 200 with the DNS
content type and the serialized bytes. -/
theorem respond_ok {hosts : List (List Char)}
    {lookup : List Char → Nat → LookupResult} {b64 : String → Option (List Nat)}
    {fb : List Nat → Option Message} {tb : Message → Option (List Nat)}
    {request : Request} {m r : Message} {bs : List Nat}
    (hdec : decodeRequest b64 fb request = some (Except.ok m))
    (hcore : respondCore hosts lookup m = CoreResult.respond r)
    (htb : tb r = some bs) :
    respond hosts lookup b64 fb tb request =
      .http ⟨200, [("Content-Type", "application/dns-message")], .binary bs⟩ := by
  simp [respond, hdec, hcore, htb]

/-- C5: every enumerated request-decoding user error — GET without a `dns`
query parameter, GET whose `dns` value fails base64url decoding, GET whose
decoded bytes parse to no DNS message, POST with an empty body, POST with a
textual body, POST whose body parses to no DNS message — yields HTTP 400
with the corresponding descriptive reason in the body, never a 5xx. -/
theorem c5_user_errors :
    (∀ hosts lookup b64 fb tb request pairs,
      request.method = Method.get → request.queryPairs = some pairs →
      pairs.find? (fun pair => pair.fst == "dns") = none →
      respond hosts lookup b64 fb tb request =
        .http ⟨400, [], .text "Bad request: Missing 'dns' query string parameter"⟩) ∧
    (∀ hosts lookup b64 fb tb request pairs pair,
      request.method = Method.get → request.queryPairs = some pairs →
      pairs.find? (fun pair => pair.fst == "dns") = some pair →
      b64 pair.snd = none →
      respond hosts lookup b64 fb tb request =
        .http ⟨400, [], .text "Bad request: Invalid DNS message"⟩) ∧
    (∀ hosts lookup b64 fb tb request pairs pair payload,
      request.method = Method.get → request.queryPairs = some pairs →
      pairs.find? (fun pair => pair.fst == "dns") = some pair →
      b64 pair.snd = some payload → fb payload = none →
      respond hosts lookup b64 fb tb request =
        .http ⟨400, [], .text "Bad request: Invalid DNS message"⟩) ∧
    (∀ hosts lookup b64 fb tb request,
      request.method = Method.post → request.body = Body.empty →
      respond hosts lookup b64 fb tb request =
        .http ⟨400, [], .text "Bad request: Empty body"⟩) ∧
    (∀ hosts lookup b64 fb tb request s,
      request.method = Method.post → request.body = Body.text s →
      respond hosts lookup b64 fb tb request =
        .http ⟨400, [], .text "Bad request: Text body"⟩) ∧
    (∀ hosts lookup b64 fb tb request data,
      request.method = Method.post → request.body = Body.binary data →
      fb data = none →
      respond hosts lookup b64 fb tb request =
        .http ⟨400, [], .text "Bad request: Invalid DNS message"⟩) := by
  refine ⟨?_, ?_, ?_, ?_, ?_, ?_⟩
  · intro hosts lookup b64 fb tb request pairs hm hp hf
    have hdec : decodeRequest b64 fb request =
        some (Except.error (HandlerError.badRequest
          "Missing 'dns' query string parameter")) := by
      unfold decodeRequest messageFromGet
      simp only [hm, hp, hf]
    simp [respond, hdec]
  · intro hosts lookup b64 fb tb request pairs pair hm hp hf hb
    have hdec : decodeRequest b64 fb request =
        some (Except.error (HandlerError.badRequest "Invalid DNS message")) := by
      unfold decodeRequest messageFromGet
      simp only [hm, hp, hf, hb]
    simp [respond, hdec]
  · intro hosts lookup b64 fb tb request pairs pair payload hm hp hf hb hfb
    have hdec : decodeRequest b64 fb request =
        some (Except.error (HandlerError.badRequest "Invalid DNS message")) := by
      unfold decodeRequest messageFromGet
      simp only [hm, hp, hf, hb, hfb]
    simp [respond, hdec]
  · intro hosts lookup b64 fb tb request hm hb
    have hdec : decodeRequest b64 fb request =
        some (Except.error (HandlerError.badRequest "Empty body")) := by
      unfold decodeRequest messageFromPost
      simp only [hm, hb]
    simp [respond, hdec]
  · intro hosts lookup b64 fb tb request s hm hb
    have hdec : decodeRequest b64 fb request =
        some (Except.error (HandlerError.badRequest "Text body")) := by
      unfold decodeRequest messageFromPost
      simp only [hm, hb]
    simp [respond, hdec]
  · intro hosts lookup b64 fb tb request data hm hb hfb
    have hdec : decodeRequest b64 fb request =
        some (Except.error (HandlerError.badRequest "Invalid DNS message")) := by
      unfold decodeRequest messageFromPost
      simp only [hm, hb, hfb]
    simp [respond, hdec]

/-- Witness for C5: each of the six decode-error shapes at a concrete
request. -/
theorem c5_user_errors_witness :
    (respond [] (fun _ _ => .other) (fun _ => none) (fun _ => none) (fun _ => none)
        ⟨Method.get, some [], Body.empty⟩ =
      .http ⟨400, [], .text "Bad request: Missing 'dns' query string parameter"⟩) ∧
    (respond [] (fun _ _ => .other) (fun _ => none) (fun _ => none) (fun _ => none)
        ⟨Method.get, some [("dns", "x")], Body.empty⟩ =
      .http ⟨400, [], .text "Bad request: Invalid DNS message"⟩) ∧
    (respond [] (fun _ _ => .other) (fun _ => some [0]) (fun _ => none) (fun _ => none)
        ⟨Method.get, some [("dns", "x")], Body.empty⟩ =
      .http ⟨400, [], .text "Bad request: Invalid DNS message"⟩) ∧
    (respond [] (fun _ _ => .other) (fun _ => none) (fun _ => none) (fun _ => none)
        ⟨Method.post, none, Body.empty⟩ =
      .http ⟨400, [], .text "Bad request: Empty body"⟩) ∧
    (respond [] (fun _ _ => .other) (fun _ => none) (fun _ => none) (fun _ => none)
        ⟨Method.post, none, Body.text "hello"⟩ =
      .http ⟨400, [], .text "Bad request: Text body"⟩) ∧
    (respond [] (fun _ _ => .other) (fun _ => none) (fun _ => none) (fun _ => none)
        ⟨Method.post, none, Body.binary [0]⟩ =
      .http ⟨400, [], .text "Bad request: Invalid DNS message"⟩) :=
  ⟨c5_user_errors.1 _ _ _ _ _ _ _ rfl rfl rfl,
   c5_user_errors.2.1 _ _ _ _ _ _ _ _ rfl rfl rfl rfl,
   c5_user_errors.2.2.1 _ _ _ _ _ _ _ _ _ rfl rfl rfl rfl rfl,
   c5_user_errors.2.2.2.1 _ _ _ _ _ _ rfl rfl,
   c5_user_errors.2.2.2.2.1 _ _ _ _ _ _ _ rfl rfl,
   c5_user_errors.2.2.2.2.2 _ _ _ _ _ _ _ rfl rfl rfl⟩

/-- C6: a request whose method is neither GET nor POST gets HTTP 405 with
an empty body, independently of the denylist, the resolver, and every
codec — no decoding, filtering, or resolution takes place. -/
theorem c6_method_not_allowed (hosts : List (List Char))
    (lookup : List Char → Nat → LookupResult) (b64 : String → Option (List Nat))
    (fb : List Nat → Option Message) (tb : Message → Option (List Nat))
    (request : Request) (hget : request.method ≠ Method.get)
    (hpost : request.method ≠ Method.post) :
    respond hosts lookup b64 fb tb request = .http ⟨405, [], .empty⟩ ∧
    ∀ hosts2 lookup2 b642 fb2 tb2,
      respond hosts2 lookup2 b642 fb2 tb2 request =
        respond hosts lookup b64 fb tb request := by
  have hdec : decodeRequest b64 fb request = none := by
    unfold decodeRequest
    cases hm : request.method <;> simp_all
  constructor
  · simp [respond, hdec]
  · intro hosts2 lookup2 b642 fb2 tb2
    have hdec2 : decodeRequest b642 fb2 request = none := by
      unfold decodeRequest
      cases hm : request.method <;> simp_all
    simp [respond, hdec, hdec2]

/-- Witness for C6: a PUT request is answered 405 with an empty body. -/
theorem c6_method_not_allowed_witness :
    respond [] (fun _ _ => .other) (fun _ => none) (fun _ => none) (fun _ => none)
        ⟨Method.put, none, Body.empty⟩ = .http ⟨405, [], .empty⟩ ∧
    ∀ hosts2 lookup2 b642 fb2 tb2,
      respond hosts2 lookup2 b642 fb2 tb2 ⟨Method.put, none, Body.empty⟩ =
        respond [] (fun _ _ => .other) (fun _ => none) (fun _ => none) (fun _ => none)
          ⟨Method.put, none, Body.empty⟩ :=
  c6_method_not_allowed [] (fun _ _ => .other) (fun _ => none) (fun _ => none)
    (fun _ => none) ⟨Method.put, none, Body.empty⟩ (by decide) (by decide)

/-- C9: the handler indexes the first element of the decoded message's
question section unconditionally, so every decoded message with an empty
question section makes the handler panic; such a message is decodable (the
wire format permits a zero-question message), shown by lifting through a
POST decode. -/
theorem c9_empty_question_panics :
    (∀ hosts lookup m, m.queries = [] →
      respondCore hosts lookup m = CoreResult.panics) ∧
    (∀ hosts lookup b64 fb tb request data m,
      request.method = Method.post → request.body = Body.binary data →
      fb data = some m → m.queries = [] →
      respond hosts lookup b64 fb tb request = RespondResult.panic) := by
  constructor
  · intro hosts lookup m hq
    unfold respondCore
    rw [hq]
  · intro hosts lookup b64 fb tb request data m hm hb hfb hq
    have hcore : respondCore hosts lookup m = CoreResult.panics := by
      unfold respondCore; rw [hq]
    simp [respond, decodeRequest, messageFromPost, hm, hb, hfb, hcore]

/-- Witness for C9: a concrete zero-question message panics the core, and a
POST whose body decodes to it panics the handler. -/
theorem c9_empty_question_panics_witness :
    respondCore [] (fun _ _ => .other)
        ⟨0, .query, 0, true, false, 0, [], [], [], []⟩ = CoreResult.panics ∧
    respond [] (fun _ _ => .other) (fun _ => none)
        (fun _ => some ⟨0, .query, 0, true, false, 0, [], [], [], []⟩) (fun _ => none)
        ⟨Method.post, none, Body.binary [0]⟩ = RespondResult.panic :=
  ⟨c9_empty_question_panics.1 _ _ _ rfl,
   c9_empty_question_panics.2 _ _ _ _ _ _ [0] _ rfl rfl rfl rfl⟩

/-- C1 (amended): for a decoded query whose first question's
handler-computed denylist key is on the denylist and whose answer section
is empty, the handler produces a DNS response with code NXDOMAIN and an
empty answer section, returns it as HTTP 200 once serialized, and never
consults the resolver (the outcome is the same for every resolver
behaviour). -/
theorem c1_blocked_nxdomain (hosts : List (List Char))
    (lookup : List Char → Nat → LookupResult) (b64 : String → Option (List Nat))
    (fb : List Nat → Option Message) (tb : Message → Option (List Nat))
    (request : Request) (m : Message) (q : Query) (rest : List Query)
    (k : List Char)
    (hdec : decodeRequest b64 fb request = some (Except.ok m))
    (hq : m.queries = q :: rest)
    (hk : domainWithoutLastPeriod q.name = some k)
    (hmem : hosts.contains k = true) (hans : m.answers = []) :
    ∃ r, respondCore hosts lookup m = CoreResult.respond r ∧
      r.responseCode = nxDomain ∧ r.answers = [] ∧
      (∀ bs, tb r = some bs →
        respond hosts lookup b64 fb tb request =
          .http ⟨200, [("Content-Type", "application/dns-message")], .binary bs⟩) ∧
      (∀ lookup2, respondCore hosts lookup2 m = respondCore hosts lookup m) := by
  have hcore := respondCore_blocked hosts lookup m q rest k hq hk hmem
  refine ⟨_, hcore, rfl, by simp [hans], ?_, ?_⟩
  · intro bs htb
    exact respond_ok hdec hcore htb
  · intro lookup2
    rw [hcore, respondCore_blocked hosts lookup2 m q rest k hq hk hmem]

/-- Witness for C1 at a concrete denylisted query. -/
theorem c1_blocked_nxdomain_witness :
    ∃ r, respondCore ["blocked".toList] lookupOther msgBlockedClean =
        CoreResult.respond r ∧
      r.responseCode = nxDomain ∧ r.answers = [] ∧
      (∀ bs, tbLen r = some bs →
        respond ["blocked".toList] lookupOther b64None
            (fun _ => some msgBlockedClean) tbLen reqPostStub =
          .http ⟨200, [("Content-Type", "application/dns-message")], .binary bs⟩) ∧
      (∀ lookup2, respondCore ["blocked".toList] lookup2 msgBlockedClean =
        respondCore ["blocked".toList] lookupOther msgBlockedClean) :=
  c1_blocked_nxdomain ["blocked".toList] lookupOther b64None
    (fun _ => some msgBlockedClean) tbLen reqPostStub msgBlockedClean
    ⟨"blocked.".toList, 1, 1⟩ [] ("blocked".toList) rfl rfl (by decide)
    (by decide) rfl

/-- Counterexample to C1 as stated: a decodable query for a denylisted
domain that already carries an answer record gets a response whose answer
section is that record, not empty — the handler clones the whole request
message. -/
theorem c1_counterexample :
    respondCore ["blocked".toList] lookupOther msgC1 = CoreResult.respond respC1 ∧
    respC1.responseCode = nxDomain ∧ respC1.answers ≠ [] :=
  ⟨by decide, by decide, by decide⟩

/-- C2 (amended): for a decoded query whose handler-computed key is not on
the denylist, whose answer section is empty and whose response code is the
default success code, a successful upstream lookup returning record set R
yields a response whose answer section is exactly R in order, whose
response code is still the success code, and which preserves the
transaction id and the whole question section; it is returned as HTTP 200
once serialized. -/
theorem c2_answered_exact (hosts : List (List Char))
    (lookup : List Char → Nat → LookupResult) (b64 : String → Option (List Nat))
    (fb : List Nat → Option Message) (tb : Message → Option (List Nat))
    (request : Request) (m : Message) (q : Query) (rest : List Query)
    (k : List Char) (records : List Record)
    (hdec : decodeRequest b64 fb request = some (Except.ok m))
    (hq : m.queries = q :: rest)
    (hk : domainWithoutLastPeriod q.name = some k)
    (hmem : hosts.contains k = false)
    (hl : lookup q.name q.queryType = .ok records)
    (hans : m.answers = []) (hrc : m.responseCode = 0) :
    ∃ r, respondCore hosts lookup m = CoreResult.respond r ∧
      r.answers = records ∧ r.responseCode = 0 ∧
      r.id = m.id ∧ r.queries = m.queries ∧
      (∀ bs, tb r = some bs →
        respond hosts lookup b64 fb tb request =
          .http ⟨200, [("Content-Type", "application/dns-message")], .binary bs⟩) := by
  have hcore := respondCore_answered hosts lookup m q rest k records hq hk hmem hl
  refine ⟨_, hcore, by simp [hans], by simp [hrc], rfl, rfl, ?_⟩
  intro bs htb
  exact respond_ok hdec hcore htb

/-- Witness for C2 at a concrete allowed query with a two-record resolver
result. -/
theorem c2_answered_exact_witness :
    ∃ r, respondCore [] (fun _ _ => LookupResult.ok [recA, recB])
        msgAllowedClean = CoreResult.respond r ∧
      r.answers = [recA, recB] ∧ r.responseCode = 0 ∧
      r.id = msgAllowedClean.id ∧ r.queries = msgAllowedClean.queries ∧
      (∀ bs, tbLen r = some bs →
        respond [] (fun _ _ => LookupResult.ok [recA, recB]) b64None
            (fun _ => some msgAllowedClean) tbLen reqPostStub =
          .http ⟨200, [("Content-Type", "application/dns-message")], .binary bs⟩) :=
  c2_answered_exact [] (fun _ _ => LookupResult.ok [recA, recB]) b64None
    (fun _ => some msgAllowedClean) tbLen reqPostStub msgAllowedClean
    ⟨"ok.".toList, 1, 1⟩ [] ("ok".toList) [recA, recB] rfl rfl (by decide) rfl
    rfl rfl rfl

/-- Counterexample to C2 as stated: a decodable query that already carries
an answer record and a non-zero response code gets a response whose answer
section is the request's record followed by the resolver's records (not
exactly R) and whose response code is the request's non-zero code (not the
default success code). -/
theorem c2_counterexample :
    respondCore [] (fun _ _ => LookupResult.ok [recB]) msgC2 =
      CoreResult.respond respC2 ∧
    respC2.answers ≠ [recB] ∧ respC2.responseCode ≠ 0 :=
  ⟨by decide, by decide, by decide⟩

/-- C3 (amended): for a decoded query whose handler-computed key is not on
the denylist and whose answer section is empty, a NoRecordsFound or Proto
resolver outcome yields a response with code NXDOMAIN and an empty answer
section, returned as HTTP 200 once serialized; the response message is
identical to the one the denylist-blocked path would build for the same
request, so the caller cannot distinguish the two cases. -/
theorem c3_not_found_nxdomain (hosts : List (List Char))
    (lookup : List Char → Nat → LookupResult) (b64 : String → Option (List Nat))
    (fb : List Nat → Option Message) (tb : Message → Option (List Nat))
    (request : Request) (m : Message) (q : Query) (rest : List Query)
    (k : List Char)
    (hdec : decodeRequest b64 fb request = some (Except.ok m))
    (hq : m.queries = q :: rest)
    (hk : domainWithoutLastPeriod q.name = some k)
    (hmem : hosts.contains k = false)
    (hl : lookup q.name q.queryType = .noRecordsFound ∨
      lookup q.name q.queryType = .proto)
    (hans : m.answers = []) :
    ∃ r, respondCore hosts lookup m = CoreResult.respond r ∧
      r.responseCode = nxDomain ∧ r.answers = [] ∧
      (∀ bs, tb r = some bs →
        respond hosts lookup b64 fb tb request =
          .http ⟨200, [("Content-Type", "application/dns-message")], .binary bs⟩) ∧
      (∀ hostsB lookupB, hostsB.contains k = true →
        respondCore hostsB lookupB m = CoreResult.respond r) := by
  have hcore := respondCore_nxmapped hosts lookup m q rest k hq hk hmem hl
  refine ⟨_, hcore, rfl, by simp [hans], ?_, ?_⟩
  · intro bs htb
    exact respond_ok hdec hcore htb
  · intro hostsB lookupB hmemB
    exact respondCore_blocked hostsB lookupB m q rest k hq hk hmemB

/-- Witness for C3 at a concrete allowed query whose lookup reports no
records. -/
theorem c3_not_found_nxdomain_witness :
    ∃ r, respondCore [] (fun _ _ => LookupResult.noRecordsFound) msgGoneClean =
        CoreResult.respond r ∧
      r.responseCode = nxDomain ∧ r.answers = [] ∧
      (∀ bs, tbLen r = some bs →
        respond [] (fun _ _ => LookupResult.noRecordsFound) b64None
            (fun _ => some msgGoneClean) tbLen reqPostStub =
          .http ⟨200, [("Content-Type", "application/dns-message")], .binary bs⟩) ∧
      (∀ hostsB lookupB, hostsB.contains ("gone".toList) = true →
        respondCore hostsB lookupB msgGoneClean = CoreResult.respond r) :=
  c3_not_found_nxdomain [] (fun _ _ => LookupResult.noRecordsFound) b64None
    (fun _ => some msgGoneClean) tbLen reqPostStub msgGoneClean
    ⟨"gone.".toList, 1, 1⟩ [] ("gone".toList) rfl rfl (by decide) rfl
    (Or.inl rfl) rfl

/-- Counterexample to C3 as stated: a decodable query that already carries
an answer record gets, on a NoRecordsFound outcome, a response with code
NXDOMAIN whose answer section is NOT empty — the request's record is
cloned into it. -/
theorem c3_counterexample :
    respondCore [] (fun _ _ => LookupResult.noRecordsFound) msgC3 =
      CoreResult.respond respC3 ∧
    respC3.responseCode = nxDomain ∧ respC3.answers ≠ [] :=
  ⟨by decide, by decide, by decide⟩

/-- C4 (amended): a resolver failure other than NoRecordsFound or Proto
makes the handler return HTTP 500 with an empty body and no DNS payload;
a serialization failure of a constructed response, however, makes the
handler panic — it emits no HTTP response at all, rather than a 500. -/
theorem c4_failure_paths :
    (∀ hosts lookup b64 fb tb request m q rest k,
      decodeRequest b64 fb request = some (Except.ok m) →
      m.queries = q :: rest → domainWithoutLastPeriod q.name = some k →
      hosts.contains k = false → lookup q.name q.queryType = LookupResult.other →
      respond hosts lookup b64 fb tb request = .http ⟨500, [], .empty⟩) ∧
    (∀ hosts lookup b64 fb tb request m r,
      decodeRequest b64 fb request = some (Except.ok m) →
      respondCore hosts lookup m = CoreResult.respond r → tb r = none →
      respond hosts lookup b64 fb tb request = RespondResult.panic) := by
  constructor
  · intro hosts lookup b64 fb tb request m q rest k hdec hq hk hmem hl
    have hcore := respondCore_transient hosts lookup m q rest k hq hk hmem hl
    simp [respond, hdec, hcore]
  · intro hosts lookup b64 fb tb request m r hdec hcore htb
    simp [respond, hdec, hcore, htb]

/-- Witness for C4: a concrete transient resolver failure gets a 500 with
an empty body, and a concrete serialization failure panics. -/
theorem c4_failure_paths_witness :
    respond [] lookupOther b64None (fun _ => some msgAllowedClean) tbLen
      reqPostStub = .http ⟨500, [], .empty⟩ ∧
    respond ["blocked".toList] lookupOther b64None
      (fun _ => some msgBlockedClean) (fun _ => none) reqPostStub =
      RespondResult.panic :=
  ⟨c4_failure_paths.1 [] lookupOther b64None (fun _ => some msgAllowedClean)
      tbLen reqPostStub msgAllowedClean ⟨"ok.".toList, 1, 1⟩ [] ("ok".toList)
      rfl rfl (by decide) rfl rfl,
   c4_failure_paths.2 ["blocked".toList] lookupOther b64None
      (fun _ => some msgBlockedClean) (fun _ => none) reqPostStub
      msgBlockedClean
      { msgBlockedClean with messageType := MessageType.response,
                             recursionAvailable := true, responseCode := nxDomain }
      rfl (by decide) rfl⟩

/-- Counterexample to C4 as stated: when serialization of the constructed
response fails, the handler panics instead of returning HTTP 500 with an
empty body. -/
theorem c4_counterexample :
    respond ["blocked".toList] lookupOther b64None
        (fun _ => some msgBlockedClean) (fun _ => none) reqPostStub =
      RespondResult.panic ∧
    respond ["blocked".toList] lookupOther b64None
        (fun _ => some msgBlockedClean) (fun _ => none) reqPostStub ≠
      RespondResult.http ⟨500, [], Body.empty⟩ :=
  ⟨by decide, by decide⟩

/-- C7: the handler's denylist key is NOT the name with one trailing
root-label dot removed for non-ASCII names: `String::remove` is called
with the CHARACTER count minus one as a BYTE index. For `éa.` the key
becomes `é.` instead of `éa` — so a query for `éa.` with `éa` on the
denylist reaches the resolver instead of being blocked — and for `é.` the
index falls inside the two-byte character and the handler panics. -/
theorem c7_strip_key_bug :
    domainWithoutLastPeriod "éa.".toList = some ("é.".toList) ∧
    specStripTrailingDot "éa.".toList = "éa".toList ∧
    domainWithoutLastPeriod "éa.".toList ≠
      some (specStripTrailingDot "éa.".toList) ∧
    domainWithoutLastPeriod "é.".toList = none ∧
    respondCore ["éa".toList] lookupOther msgNonAscii =
      CoreResult.internalError ∧
    respondCore ["éa".toList] lookupOther msgNonAsciiShort =
      CoreResult.panics :=
  ⟨by decide, by decide, by decide, by decide, by decide, by decide⟩

/-- C8: for a decoded request whose first question's key is on the
denylist, the full HTTP response is the same whatever the resolver does —
the blocked path is a deterministic function of the request and denylist
membership alone, so two identical requests get byte-identical
responses. -/
theorem c8_blocked_deterministic (hosts : List (List Char))
    (lookup1 lookup2 : List Char → Nat → LookupResult)
    (b64 : String → Option (List Nat)) (fb : List Nat → Option Message)
    (tb : Message → Option (List Nat)) (request : Request) (m : Message)
    (q : Query) (rest : List Query) (k : List Char)
    (hdec : decodeRequest b64 fb request = some (Except.ok m))
    (hq : m.queries = q :: rest)
    (hk : domainWithoutLastPeriod q.name = some k)
    (hmem : hosts.contains k = true) :
    respond hosts lookup1 b64 fb tb request =
      respond hosts lookup2 b64 fb tb request := by
  have h1 := respondCore_blocked hosts lookup1 m q rest k hq hk hmem
  have h2 := respondCore_blocked hosts lookup2 m q rest k hq hk hmem
  simp [respond, hdec, h1, h2]

/-- Witness for C8: the same blocked request against two different
resolver behaviours produces the same HTTP response. -/
theorem c8_blocked_deterministic_witness :
    respond ["blocked".toList] (fun _ _ => LookupResult.ok [recA]) b64None
        (fun _ => some msgBlockedClean) tbLen reqPostStub =
      respond ["blocked".toList] lookupOther b64None
        (fun _ => some msgBlockedClean) tbLen reqPostStub :=
  c8_blocked_deterministic ["blocked".toList]
    (fun _ _ => LookupResult.ok [recA]) lookupOther b64None
    (fun _ => some msgBlockedClean) tbLen reqPostStub msgBlockedClean
    ⟨"blocked.".toList, 1, 1⟩ [] ("blocked".toList) rfl rfl (by decide)
    (by decide)

/-- C10: whenever the core produces a response message, that message
agrees with the request on the transaction id, opcode, recursion-desired
flag, the entire question section, the authority and additional sections;
its message type is Response and recursion-available is set; its answer
section is the request's with records appended; and its response code is
the request's or NXDomain. -/
theorem c10_frame (hosts : List (List Char))
    (lookup : List Char → Nat → LookupResult) (m r : Message)
    (h : respondCore hosts lookup m = CoreResult.respond r) :
    r.id = m.id ∧ r.opCode = m.opCode ∧
    r.recursionDesired = m.recursionDesired ∧
    r.queries = m.queries ∧ r.authority = m.authority ∧
    r.additionals = m.additionals ∧
    r.messageType = MessageType.response ∧ r.recursionAvailable = true ∧
    (∃ extra, r.answers = m.answers ++ extra) ∧
    (r.responseCode = m.responseCode ∨ r.responseCode = nxDomain) := by
  rcases hq : m.queries with _ | ⟨q, rest⟩
  · simp only [respondCore, hq] at h
    simp at h
  · rcases hk : domainWithoutLastPeriod q.name with _ | key
    · simp only [respondCore, hq, hk] at h
      simp at h
    · simp only [respondCore, hq, hk] at h
      split at h
      · injection h with h
        subst h
        exact ⟨rfl, rfl, rfl, rfl, rfl, rfl, rfl, rfl, ⟨[], by simp⟩, Or.inr rfl⟩
      · split at h
        · injection h with h
          subst h
          exact ⟨rfl, rfl, rfl, rfl, rfl, rfl, rfl, rfl, ⟨_, rfl⟩, Or.inl rfl⟩
        · injection h with h
          subst h
          exact ⟨rfl, rfl, rfl, rfl, rfl, rfl, rfl, rfl, ⟨[], by simp⟩, Or.inr rfl⟩
        · injection h with h
          subst h
          exact ⟨rfl, rfl, rfl, rfl, rfl, rfl, rfl, rfl, ⟨[], by simp⟩, Or.inr rfl⟩
        · exact absurd h (by simp)

/-- Witness for C10 at a concrete allowed query answered with one
record. -/
theorem c10_frame_witness :
    respC10.id = msgAllowedClean.id ∧
    respC10.opCode = msgAllowedClean.opCode ∧
    respC10.recursionDesired = msgAllowedClean.recursionDesired ∧
    respC10.queries = msgAllowedClean.queries ∧
    respC10.authority = msgAllowedClean.authority ∧
    respC10.additionals = msgAllowedClean.additionals ∧
    respC10.messageType = MessageType.response ∧
    respC10.recursionAvailable = true ∧
    (∃ extra, respC10.answers = msgAllowedClean.answers ++ extra) ∧
    (respC10.responseCode = msgAllowedClean.responseCode ∨
      respC10.responseCode = nxDomain) :=
  c10_frame [] (fun _ _ => LookupResult.ok [recB]) msgAllowedClean respC10
    (by decide)

end Dnssls
